import Mathlib

/-!
Verification of the YouTube production blueprint app.

The page layer (keyword splitting, form handling, clipboard, plain-text
export) is embedded from `src/app/page.tsx`.  The Blueprint Synthesis
Engine (`lib/generators.ts`, `lib/data.ts`) is not part of the sources,
so it is modelled from the specification, as flagged on each definition.
-/

namespace Blueprint

/-! ## Data model (VideoBlueprint aggregate, fields as used by `page.tsx`) -/

structure TrendSignal where
  headline : String
  rationale : String

structure NicheAnalysis where
  positioningStatement : String
  trendSignals : List TrendSignal
  audienceQuestions : List String
  competitorWatch : List String

structure OutlineSection where
  title : String
  purpose : String
  talkingPoints : List String
  estimatedDuration : Nat

structure ScriptSection where
  title : String
  voiceover : String
  visualPrompts : List String
  engagementHook : String

structure ChapterMarker where
  timestamp : String
  label : String

structure SeoPackage where
  videoTitle : String
  description : String
  keywordTags : List String
  hashtags : List String
  chapterMarkers : List ChapterMarker

structure TimelineDays where
  preProduction : Nat
  production : Nat
  postProduction : Nat

structure ChecklistTask where
  id : String
  title : String
  description : String
  phase : String
  owner : String
  dueAfterHours : Nat

structure AssetRequest where
  label : String
  notes : String

structure ProductionPlan where
  timelineDays : TimelineDays
  checklist : List ChecklistTask
  assetRequests : List AssetRequest

structure UploadPackage where
  optimizedTitle : String
  optimizedDescription : String
  uploadTags : List String
  thumbnailConcept : String
  endScreenIdeas : List String
  playlistTargets : List String

structure PublishingPlan where
  bestPublishWindows : List String
  communityPrompts : List String
  crossPromotion : List String

/-- Raw brief: the argument object built in `handleGenerate` (page.tsx 75-82). -/
structure RawBrief where
  topic : String
  minutes : Int
  targetAudience : String
  tone : String
  keywords : List String
  callToAction : String

structure VideoBlueprint where
  topic : String
  videoLengthMinutes : Nat
  targetAudience : String
  tone : String
  narrativeAngle : String
  primaryKeywords : List String
  callToAction : String
  nicheAnalysis : NicheAnalysis
  outline : List OutlineSection
  script : List ScriptSection
  seo : SeoPackage
  production : ProductionPlan
  upload : UploadPackage
  publishing : PublishingPlan

/-! ## Page utilities (page.tsx) -/

/-- Separator class of the regex in `splitKeywords` (page.tsx 37). -/
def isKeywordSep (c : Char) : Bool := c == ',' || c == '\n'

/-- JS `String.prototype.split` on the `[,\n]` class: splits a character
list at each separator, keeping empty segments (as JS does). -/
def splitOnSep (l : List Char) : List (List Char) :=
  l.foldr (fun c acc =>
    if isKeywordSep c then [] :: acc
    else match acc with
      | [] => [[c]]
      | g :: gs => (c :: g) :: gs) [[]]

/-- JS `String.prototype.trim`: drop whitespace at both ends. -/
def trimChars (l : List Char) : List Char :=
  ((l.dropWhile Char.isWhitespace).reverse.dropWhile Char.isWhitespace).reverse

/-- String form of `trimChars`. -/
def jsTrim (s : String) : String := String.mk (trimChars s.data)

/-- Embeds `splitKeywords` (page.tsx 35-40): split on comma or newline,
trim each piece, drop pieces that become empty (`filter(Boolean)`). -/
def splitKeywords (s : String) : List String :=
  ((splitOnSep s.data).map (fun g => String.mk (trimChars g))).filter
    (fun w => !w.isEmpty)

/-- Embeds `TONE_OPTIONS` (page.tsx 27-33). -/
def TONE_OPTIONS : List String :=
  ["Authoritative", "Educational", "Inspirational", "Entertaining", "Analytical"]

/-- Embeds the `FormState` type (page.tsx 8-15); `minutes` is the JS
number held in the form state. -/
structure FormState where
  topic : String
  minutes : Int
  audience : String
  tone : String
  callToAction : String
  keywords : String

/-- Embeds the minutes `onChange` handler (page.tsx 126-131):
`Number(event.target.value || 9)`.  `jsNumber` stands for the JS `Number`
conversion applied to a non-empty field value. -/
def minutesOnChange (jsNumber : String → Int) (v : String) : Int :=
  if v = "" then 9 else jsNumber v

/-- Embeds the brief object built inside `handleGenerate` (page.tsx 75-82):
forwards every form field, with the keyword textarea fed through
`splitKeywords`; `minutes` is passed through unchanged. -/
def handleGenerateBrief (f : FormState) : RawBrief :=
  { topic := f.topic
    minutes := f.minutes
    targetAudience := f.audience
    tone := f.tone
    keywords := splitKeywords f.keywords
    callToAction := f.callToAction }

/-- Embeds `copyToClipboard` (page.tsx 54-56): optional chaining on
`navigator.clipboard`, modelled as an `Option` of a write function; when
the clipboard is absent the call evaluates to `undefined` (`none`). -/
def copyToClipboard (α : Type) (clipboard : Option (String → α))
    (text : String) : Option α :=
  match clipboard with
  | none => none
  | some writeText => some (writeText text)

/-! ## Blueprint Synthesis Engine, modelled from the spec

The engine lives in `lib/generators.ts` / `lib/data.ts`, which are not
among the sources; every definition below is modelled from the
specification sections named in its doc comment. -/

/-- Modelled from the spec: normalized Brief (section 3) — the missing
`lib` code defines the Brief the Input Normalizer produces. -/
structure Brief where
  topic : String
  minutes : Nat
  targetAudience : String
  tone : String
  keywords : List String
  callToAction : String

/-- Modelled from the spec: Category heuristic bundle (section 3), the
data rows of the missing `lib/data.ts` store. -/
structure Category where
  id : String
  triggerTerms : List String
  angleTemplate : String
  competitorPool : List String
  questionStems : List String
  trendTemplates : List String
  toneModifier : String

/-- Modelled from the spec: the generic/fallback category the Category
Resolver designates when nothing matches (section 4.2). -/
def fallbackCategory : Category :=
  { id := "general"
    triggerTerms := []
    angleTemplate := "A practical playbook for"
    competitorPool := ["Creator Insider", "Channel Makers", "VidIQ", "Think Media"]
    questionStems :=
      ["How do I start with", "What mistakes should I avoid in",
       "How long does it take to master"]
    trendTemplates :=
      ["Rising interest in", "New tactics for", "Why creators now bet on"]
    toneModifier := "Grounded" }

/-- Modelled from the spec: the Category Heuristics Store (section 2), a
static table of categories with trigger terms, templates and pools. -/
def categoryStore : List Category :=
  [{ id := "technology"
     triggerTerms := ["ai", "design", "software", "tech", "automation"]
     angleTemplate := "The systems-first breakdown of"
     competitorPool := ["Fireship", "Marques Brownlee", "ColdFusion", "Two Minute Papers"]
     questionStems :=
       ["Which tools actually matter for", "Is it too late to learn",
        "How do teams adopt"]
     trendTemplates :=
       ["Tooling shake-up around", "Budget shifts toward", "Hiring demand for"]
     toneModifier := "Precise" },
   { id := "education"
     triggerTerms := ["learn", "guide", "tutorial", "course", "how to"]
     angleTemplate := "The step-by-step route through"
     competitorPool := ["Ali Abdaal", "Thomas Frank", "Khan Academy", "CrashCourse"]
     questionStems :=
       ["What is the fastest way to learn", "Where do beginners fail at",
        "What should I practice first in"]
     trendTemplates :=
       ["Learners searching for", "Cohort courses about", "Short-form explainers on"]
     toneModifier := "Patient" },
   { id := "lifestyle"
     triggerTerms := ["coffee", "fitness", "travel", "food", "home"]
     angleTemplate := "The everyday upgrade hiding in"
     competitorPool := ["James Hoffmann", "Pick Up Limes", "Yes Theory", "Matt D Avella"]
     questionStems :=
       ["Is it worth the money to try", "How do busy people fit in",
        "What gear do I need for"]
     trendTemplates :=
       ["Routine videos about", "Cost-of-living angles on", "Aesthetic formats for"]
     toneModifier := "Warm" }]

/-- Decidable substring test used for trigger-term matching. -/
def containsSub (hay pat : String) : Bool := decide (pat.data <:+: hay.data)

/-- Modelled from the spec: Category Resolver matching (section 4.2) —
a category fires when a trigger term occurs in the topic or a keyword. -/
def matchesCategory (topic : String) (keywords : List String) (c : Category) : Bool :=
  c.triggerTerms.any (fun t =>
    containsSub topic.toLower t || keywords.any (fun k => containsSub k.toLower t))

/-- Modelled from the spec: Category Resolver (section 4.2) — first match
in declaration order, generic fallback otherwise. -/
def resolveCategory (topic : String) (keywords : List String) : Category :=
  (categoryStore.find? (matchesCategory topic keywords)).getD fallbackCategory

/-- Modelled from the spec: the Input Normalizer clamps runtime to the
supported 5-25 bound (sections 3 and 4.1). -/
def clampMinutes (i : Int) : Nat :=
  if i < 5 then 5 else if i ≤ 25 then i.toNat else 25

/-- Modelled from the spec: duplicate removal preserving first-seen order
(section 4.1). -/
def dedupFirstSeen (l : List String) : List String :=
  l.foldl (fun acc x => if x ∈ acc then acc else acc ++ [x]) []

/-- Modelled from the spec: Input Normalizer (section 4.1) — clamp
minutes, trim/drop/dedupe keywords, default tone and blank texts;
never fails. -/
def normalizeBrief (raw : RawBrief) : Brief :=
  { topic := if (jsTrim raw.topic).isEmpty then "your next video" else raw.topic
    minutes := clampMinutes raw.minutes
    targetAudience :=
      if (jsTrim raw.targetAudience).isEmpty then "curious viewers"
      else raw.targetAudience
    tone := if raw.tone ∈ TONE_OPTIONS then raw.tone else "Educational"
    keywords := dedupFirstSeen ((raw.keywords.map jsTrim).filter (fun w => !w.isEmpty))
    callToAction :=
      if (jsTrim raw.callToAction).isEmpty then "Subscribe for more"
      else raw.callToAction }

/-! ### Outline Allocator (spec section 4.4) -/

/-- Modelled from the spec: the ordered section archetypes with their
fixed runtime proportions, in percent (section 4.4). -/
def archetypes : List (String × Nat) :=
  [("Hook", 20), ("Context", 15), ("Core Teaching", 30),
   ("Proof & Case Study", 20), ("Recap & CTA", 15)]

/-- Modelled from the spec: remove the first archetype carrying the
minimal weight (the lowest-weighted one, section 4.4). -/
def removeFirstMinWeight : List (String × Nat) → List (String × Nat)
  | [] => []
  | a :: rest =>
    let mw := (a :: rest).foldl (fun acc p => Nat.min acc p.2) a.2
    match (a :: rest).findIdx? (fun p => p.2 == mw) with
    | none => a :: rest
    | some i => (a :: rest).eraseIdx i

/-- Iterated removal of lowest-weighted archetypes. -/
def dropMinTimes : Nat → List (String × Nat) → List (String × Nat)
  | 0, l => l
  | k + 1, l => dropMinTimes k (removeFirstMinWeight l)

/-- Modelled from the spec: drop the lowest-weighted archetypes when the
archetype count would force a section below the 1-minute floor
(section 4.4); with the 5-25 bound and 5 archetypes nothing is dropped. -/
def activeArchetypes (m : Nat) : List (String × Nat) :=
  dropMinTimes (archetypes.length - m) archetypes

/-- Modelled from the spec: largest-remainder (Hamilton) rounding of the
weighted quotas to integer minutes whose sum is exactly `m`
(sections 4.4 and 9): floors of the quotas, then one extra minute to the
indices with the largest remainders (ties to the earlier index). -/
def largestRemainder (m : Nat) (ws : List Nat) : List Nat :=
  let W := ws.foldl (· + ·) 0
  let base := ws.map (fun w => m * w / W)
  let rems := ws.map (fun w => m * w % W)
  let leftover := m - base.foldl (· + ·) 0
  let n := ws.length
  (List.range n).map (fun i =>
    let r := rems.getD i 0
    let rank := (List.range n).countP (fun j =>
      decide (r < rems.getD j 0 ∨ (rems.getD j 0 = r ∧ j < i)))
    base.getD i 0 + (if rank < leftover then 1 else 0))

/-- Per-section minutes for a clamped runtime `m`. -/
def allocateDurations (m : Nat) : List Nat :=
  largestRemainder m ((activeArchetypes m).map Prod.snd)

/-- Modelled from the spec: talking points templated from the category
bundle and topic (section 4.4). -/
def talkingPointsFor (cat : Category) (topic : String) (name : String) : List String :=
  ["Frame " ++ topic ++ " inside the " ++ name ++ " beat",
   cat.toneModifier ++ " angle on " ++ topic,
   "One takeaway the audience can apply after " ++ name]

/-- Modelled from the spec: Outline Allocator (section 4.4) — one section
per active archetype, durations from largest-remainder rounding. -/
def buildOutline (cat : Category) (topic : String) (m : Nat) : List OutlineSection :=
  List.zipWith
    (fun p d =>
      { title := p.1 ++ ": " ++ topic
        purpose := p.1 ++ " segment keeping viewers locked on " ++ topic
        talkingPoints := talkingPointsFor cat topic p.1
        estimatedDuration := d })
    (activeArchetypes m) (allocateDurations m)

/-! ### Script Composer (spec section 4.5) -/

/-- Modelled from the spec: mid-outline engagement hook, templated from
tone and section position (section 4.5). -/
def midHook (tone : String) (i : Nat) : String :=
  "Keep a " ++ tone ++ " beat going into segment " ++ toString (i + 2)

/-- Modelled from the spec: Script Composer (section 4.5) — one script
section per outline section in order, same title; the final section hook
steers toward the call to action. -/
def composeScript (tone cta topic : String) : Nat → List OutlineSection → List ScriptSection
  | _, [] => []
  | i, s :: rest =>
    { title := s.title
      voiceover :=
        "Here is why " ++ topic ++ " matters right now. " ++
          String.intercalate (". ") s.talkingPoints ++
          ". Carry that " ++ tone ++ " energy into what comes next."
      visualPrompts :=
        ["B-roll supporting " ++ s.purpose,
         "On-screen text of " ++ s.title,
         "Cutaway reinforcing " ++ topic]
      engagementHook :=
        if rest.isEmpty then "Close by steering viewers to: " ++ cta
        else midHook tone i } :: composeScript tone cta topic (i + 1) rest

/-! ### SEO Composer (spec section 4.6) -/

/-- Modelled from the spec: chapter timestamps formatted mm:ss from
cumulative minutes (section 4.6); sections are whole minutes, so the
seconds part is always 00. -/
def formatTimestamp (m : Nat) : String := toString m ++ ":00"

/-- Cumulative start minute of each outline section. -/
def chapterStarts : Nat → List OutlineSection → List Nat
  | _, [] => []
  | acc, s :: rest => acc :: chapterStarts (acc + s.estimatedDuration) rest

/-- Modelled from the spec: one chapter marker per outline section at its
cumulative start, label = section title (section 4.6). -/
def chapterMarkersFrom : Nat → List OutlineSection → List ChapterMarker
  | _, [] => []
  | acc, s :: rest =>
    { timestamp := formatTimestamp acc, label := s.title } ::
      chapterMarkersFrom (acc + s.estimatedDuration) rest

/-- Modelled from the spec: hashtag token — leading marker, non
alphanumerics stripped (section 4.6). -/
def toHashtag (k : String) : String :=
  "#" ++ String.mk (k.data.filter (fun c => c.isAlphanum))

/-- Truncation to a character budget. -/
def truncAt (n : Nat) (s : String) : String := String.mk (s.data.take n)

/-- Modelled from the spec: SEO Composer (section 4.6) — title under a
100-character budget, description ending with a keyword line, tags from
brief keywords first then category terms capped at 12, hashtags from the
top 3 keywords, chapter markers from cumulative durations. -/
def seoPackageFor (b : Brief) (cat : Category) (angle : String)
    (outline : List OutlineSection) : SeoPackage :=
  { videoTitle := truncAt 100 (b.topic ++ ": " ++ angle)
    description :=
      angle ++ "\n\n" ++ b.callToAction ++ "\n\nKeywords: " ++
        String.intercalate (", ") b.keywords
    keywordTags := (dedupFirstSeen (b.keywords ++ cat.triggerTerms)).take 12
    hashtags := (b.keywords.take 3).map toHashtag
    chapterMarkers := chapterMarkersFrom 0 outline }

/-! ### Remaining planners (spec sections 4.3, 4.7-4.9) -/

/-- Modelled from the spec: Niche Analyzer (section 4.3) — positioning
from topic and audience, three trend signals, templated questions, fixed
competitor selection. -/
def nicheAnalysisFor (cat : Category) (b : Brief) : NicheAnalysis :=
  { positioningStatement :=
      "Position " ++ b.topic ++ " as the go-to resource for " ++ b.targetAudience
    trendSignals := cat.trendTemplates.map (fun t =>
      { headline := t ++ " " ++ b.topic
        rationale :=
          "Search interest around " ++ b.topic ++ " keeps climbing on " ++
            cat.id ++ " channels" })
    audienceQuestions := cat.questionStems.map (fun q => q ++ " " ++ b.topic ++ "?")
    competitorWatch := cat.competitorPool.take 3 }

/-- Modelled from the spec: narrative angle templated from the category
and brief. -/
def narrativeAngleFor (cat : Category) (b : Brief) : String :=
  cat.angleTemplate ++ " " ++ b.topic ++ " for " ++ b.targetAudience

/-- Modelled from the spec: Production Planner timeline step function —
longer runtime means more days, monotonic, each phase at least one day
(section 4.7). -/
def timelineDaysFor (m : Nat) : TimelineDays :=
  { preProduction := 1
    production := if m ≤ 10 then 2 else if m ≤ 18 then 3 else 4
    postProduction := if m ≤ 12 then 2 else 3 }

/-- Modelled from the spec: Production Planner checklist — fixed task
archetypes per phase with owner roles and increasing due offsets
(section 4.7). -/
def checklistFor (topic : String) : List ChecklistTask :=
  [{ id := "script-lock", title := "Lock final script"
     description := "Approve the voiceover for " ++ topic
     phase := "pre-production", owner := "Writer", dueAfterHours := 24 },
   { id := "shot-list", title := "Build the shot list"
     description := "Map every visual beat of " ++ topic
     phase := "pre-production", owner := "Director", dueAfterHours := 36 },
   { id := "film", title := "Film all segments"
     description := "Capture A-roll and B-roll for " ++ topic
     phase := "production", owner := "Camera Lead", dueAfterHours := 72 },
   { id := "edit", title := "Assemble the edit"
     description := "Cut the narrative arc of " ++ topic
     phase := "post-production", owner := "Editor", dueAfterHours := 96 },
   { id := "thumbnail", title := "Design the thumbnail"
     description := "High-contrast concept for " ++ topic
     phase := "post-production", owner := "Designer", dueAfterHours := 108 },
   { id := "metadata", title := "Enter upload metadata"
     description := "Apply the SEO package for " ++ topic
     phase := "post-production", owner := "Channel Manager", dueAfterHours := 120 }]

/-- Modelled from the spec: fixed asset requests with topic-specific
notes (section 4.7). -/
def assetRequestsFor (topic : String) : List AssetRequest :=
  [{ label := "B-roll", notes := "Supporting footage of " ++ topic },
   { label := "Graphics", notes := "Lower thirds and diagrams for " ++ topic },
   { label := "Music", notes := "Licensed bed matching the tone of " ++ topic }]

/-- Modelled from the spec: Upload Packager (section 4.8) — click-through
framing distinct from the SEO package. -/
def uploadPackageFor (b : Brief) (cat : Category) : UploadPackage :=
  { optimizedTitle := b.topic ++ " | What " ++ b.targetAudience ++ " Need To Know"
    optimizedDescription := "Inside: " ++ b.topic ++ ". " ++ b.callToAction
    uploadTags := (b.keywords ++ cat.triggerTerms).take 10
    thumbnailConcept := b.tone ++ " close-up with bold text about " ++ b.topic
    endScreenIdeas :=
      ["Subscribe end card", "Teaser for the next upload", "Playlist promo panel"]
    playlistTargets := [cat.id ++ " essentials", b.topic ++ " deep dives"] }

/-- Modelled from the spec: Publishing Planner (section 4.9) — static
best-practice windows, templated prompts and cross-promotion. -/
def publishingPlanFor (b : Brief) (cat : Category) : PublishingPlan :=
  { bestPublishWindows :=
      ["Saturday 10:00 local", "Sunday 15:00 local", "Wednesday 17:00 local"]
    communityPrompts :=
      ["Poll: the biggest blocker around " ++ b.topic,
       "Behind-the-scenes still from the " ++ b.topic ++ " shoot"]
    crossPromotion :=
      ["Short-form teaser cut from " ++ b.topic,
       "Newsletter feature pitched to " ++ cat.id ++ " readers"] }

/-- Modelled from the spec: Blueprint Assembler / engine entry point
`synthesize` (sections 4.10 and 6), the missing `generateVideoBlueprint`
of `lib/generators.ts`: pure composition of normalizer, resolver and the
section builders. -/
def generateVideoBlueprint (raw : RawBrief) : VideoBlueprint :=
  let b := normalizeBrief raw
  let cat := resolveCategory b.topic b.keywords
  let angle := narrativeAngleFor cat b
  let outline := buildOutline cat b.topic b.minutes
  { topic := b.topic
    videoLengthMinutes := b.minutes
    targetAudience := b.targetAudience
    tone := b.tone
    narrativeAngle := angle
    primaryKeywords := b.keywords
    callToAction := b.callToAction
    nicheAnalysis := nicheAnalysisFor cat b
    outline := outline
    script := composeScript b.tone b.callToAction b.topic 0 outline
    seo := seoPackageFor b cat angle outline
    production :=
      { timelineDays := timelineDaysFor b.minutes
        checklist := checklistFor b.topic
        assetRequests := assetRequestsFor b.topic }
    upload := uploadPackageFor b cat
    publishing := publishingPlanFor b cat }

/-! ## Plain-text export (`formatBlueprintText`, page.tsx 499-565)

The source builds one literal array of lines and joins it with a newline;
the array is embedded here as consecutive blocks in source order. -/

/-- Embeds the `scriptSections` string (page.tsx 500-508): per-section
script text joined with a newline. -/
def scriptSectionsText (script : List ScriptSection) : String :=
  String.intercalate ("\n")
    (script.enum.map (fun p =>
      "Section " ++ toString (p.1 + 1) ++ ": " ++ p.2.title ++ "\n" ++
        p.2.voiceover ++ "\n\nVisual Prompts:\n- " ++
        String.intercalate ("\n- ") p.2.visualPrompts ++
        "\nEngagement: " ++ p.2.engagementHook ++ "\n"))

/-- Export lines, header block (page.tsx 511-516). -/
def headerLines (b : VideoBlueprint) : List String :=
  ["YouTube Blueprint — " ++ b.topic,
   "",
   "Audience: " ++ b.targetAudience,
   "Tone: " ++ b.tone,
   "Length: " ++ toString b.videoLengthMinutes ++ " minutes",
   "Narrative Angle: " ++ b.narrativeAngle]

/-- Export lines, niche positioning block (page.tsx 517-519). -/
def nicheLines (b : VideoBlueprint) : List String :=
  ["", "Niche Positioning:", b.nicheAnalysis.positioningStatement]

/-- Export lines, trend signals block (page.tsx 520-524). -/
def trendLines (b : VideoBlueprint) : List String :=
  ["", "Trend Signals:"] ++
    b.nicheAnalysis.trendSignals.map (fun s => "- " ++ s.headline ++ ": " ++ s.rationale)

/-- Export lines, outline block (page.tsx 525-530). -/
def outlineLines (b : VideoBlueprint) : List String :=
  ["", "Outline:"] ++
    b.outline.map (fun s =>
      "- " ++ s.title ++ " (" ++ toString s.estimatedDuration ++ " min): " ++ s.purpose)

/-- Export lines, script block (page.tsx 531-533). -/
def scriptLines (b : VideoBlueprint) : List String :=
  ["", "Script:", scriptSectionsText b.script]

/-- Export lines, SEO block (page.tsx 534-542). -/
def seoLines (b : VideoBlueprint) : List String :=
  ["", "SEO Title:", b.seo.videoTitle,
   "", "SEO Description:", b.seo.description,
   "", "Tags:", String.intercalate (", ") b.seo.keywordTags]

/-- Export lines, production checklist block (page.tsx 543-547). -/
def checklistLines (b : VideoBlueprint) : List String :=
  ["", "Production Checklist:"] ++
    b.production.checklist.map (fun t =>
      "- [ ] " ++ t.title ++ " (" ++ t.phase ++ ", owner " ++ t.owner ++ ")")

/-- Export lines, upload package block (page.tsx 548-552). -/
def uploadLines (b : VideoBlueprint) : List String :=
  ["", "Upload Package:",
   "Title: " ++ b.upload.optimizedTitle,
   "Thumbnail Concept: " ++ b.upload.thumbnailConcept,
   "Call To Action: " ++ b.callToAction]

/-- Export lines, publishing block (page.tsx 553-563). -/
def publishingLines (b : VideoBlueprint) : List String :=
  ["", "Publishing Plan:"] ++
    b.publishing.bestPublishWindows.map (fun w => "- " ++ w) ++
    (["", "Community Prompts:"] ++
      b.publishing.communityPrompts.map (fun p => "- " ++ p) ++
      (["", "Cross Promotion:"] ++
        b.publishing.crossPromotion.map (fun i => "- " ++ i)))

/-- The full export array of `formatBlueprintText` (page.tsx 510-564),
blocks in source order. -/
def formatBlueprintLines (b : VideoBlueprint) : List String :=
  headerLines b ++
    (nicheLines b ++
      (trendLines b ++
        (outlineLines b ++
          (scriptLines b ++
            (seoLines b ++
              (checklistLines b ++
                (uploadLines b ++ publishingLines b)))))))

/-- Embeds `formatBlueprintText` (page.tsx 499-565): the line array
joined with a newline. -/
def formatBlueprintText (b : VideoBlueprint) : String :=
  String.intercalate ("\n") (formatBlueprintLines b)

/-! ## Claims about the page utilities -/

/-- C9: every element of `splitKeywords` is a non-empty string, and the
elements keep the relative order of the phrases of the input: the result
is a sublist of the trimmed split segments. -/
theorem splitKeywords_nonempty_ordered (s : String) :
    ((splitKeywords s).all (fun w => !w.isEmpty) = true) ∧
      List.Sublist (splitKeywords s)
        ((splitOnSep s.data).map (fun g => String.mk (trimChars g))) := by
  constructor
  · rw [List.all_eq_true]
    intro x hx
    exact (List.mem_filter.mp hx).2
  · exact List.filter_sublist _

/-- C10: `copyToClipboard` with an absent clipboard returns `undefined`
(`none`) without attempting the write; with a present clipboard it
returns the write result. -/
theorem copyToClipboard_safe (α : Type) (text : String) (w : String → α) :
    copyToClipboard α none text = none ∧
      copyToClipboard α (some w) text = some (w text) :=
  ⟨rfl, rfl⟩

/-- Stated from the claim wording for C5: keywords split on
comma/newline, trimmed, emptied entries dropped, duplicates removed while
preserving first-seen order. -/
def claimedKeywordPipeline (input : String) : List String :=
  dedupFirstSeen (splitKeywords input)

/-- Form state whose keyword textarea repeats one keyword. -/
def dupKeywordForm : FormState :=
  { topic := "t", minutes := 9, audience := "a", tone := "Educational"
    callToAction := "c", keywords := "a,a" }

/-- C5 counterexample: for the raw keyword input string made of the same
keyword twice, the list handed to the engine keeps the duplicate, so it
differs from the deduplicated list the claim describes. -/
theorem page_keywords_counterexample :
    (handleGenerateBrief dupKeywordForm).keywords = ["a", "a"] ∧
      claimedKeywordPipeline ("a,a") = ["a"] ∧
      ¬ (handleGenerateBrief dupKeywordForm).keywords =
          claimedKeywordPipeline ("a,a") := by
  refine ⟨by decide, by decide, by decide⟩

/-- C5 amended: the keyword list handed to the engine is produced by
splitting on comma/newline, trimming each entry and dropping entries that
become empty; the page performs no duplicate removal. -/
theorem page_keywords_no_dedup (f : FormState) :
    (handleGenerateBrief f).keywords =
      ((splitOnSep f.keywords.data).map (fun g => String.mk (trimChars g))).filter
        (fun w => !w.isEmpty) :=
  rfl

/-- C8: an empty minutes field resets the form minutes to 9, a non-empty
field stores the JS numeric value of the string, and `handleGenerate`
passes the stored minutes to the engine unclamped. -/
theorem minutes_input_behavior (jsNumber : String → Int) (v : String)
    (f : FormState) :
    minutesOnChange jsNumber ("") = 9 ∧
      (v ≠ "" → minutesOnChange jsNumber v = jsNumber v) ∧
      (handleGenerateBrief f).minutes = f.minutes := by
  refine ⟨rfl, ?_, rfl⟩
  intro hv
  simp [minutesOnChange, hv]

/-- Form state holding out-of-bound minutes. -/
def bigMinutesForm : FormState :=
  { topic := "t", minutes := 99, audience := "a", tone := "Educational"
    callToAction := "c", keywords := "k1, k2" }

/-- C8 witness: concrete instances of the three parts, with minutes 99
showing the absence of clamping in the page code. -/
theorem minutes_input_behavior_witness :
    minutesOnChange (fun _ => 42) ("") = 9 ∧
      minutesOnChange (fun _ => 42) ("7") = 42 ∧
      (handleGenerateBrief bigMinutesForm).minutes = 99 :=
  ⟨(minutes_input_behavior (fun _ => 42) ("7") bigMinutesForm).1,
   (minutes_input_behavior (fun _ => 42) ("7") bigMinutesForm).2.1 (by decide),
   (minutes_input_behavior (fun _ => 42) ("7") bigMinutesForm).2.2⟩

/-! ## Claims about the engine model -/

lemma gvb_outline (raw : RawBrief) :
    (generateVideoBlueprint raw).outline =
      buildOutline (resolveCategory (normalizeBrief raw).topic (normalizeBrief raw).keywords)
        (normalizeBrief raw).topic (clampMinutes raw.minutes) :=
  rfl

lemma gvb_script (raw : RawBrief) :
    (generateVideoBlueprint raw).script =
      composeScript (normalizeBrief raw).tone (normalizeBrief raw).callToAction
        (normalizeBrief raw).topic 0 ((generateVideoBlueprint raw).outline) :=
  rfl

lemma gvb_markers (raw : RawBrief) :
    (generateVideoBlueprint raw).seo.chapterMarkers =
      chapterMarkersFrom 0 ((generateVideoBlueprint raw).outline) :=
  rfl

lemma zipWith_map_right {α β γ : Type} (f : α → β → γ) (g : γ → β)
    (hgf : ∀ a b, g (f a b) = b) :
    ∀ (l₁ : List α) (l₂ : List β), l₁.length = l₂.length →
      (List.zipWith f l₁ l₂).map g = l₂ := by
  intro l₁
  induction l₁ with
  | nil =>
    intro l₂ h
    cases l₂ with
    | nil => rfl
    | cons b t => simp at h
  | cons a t ih =>
    intro l₂ h
    cases l₂ with
    | nil => simp at h
    | cons b t₂ =>
      simp only [List.zipWith_cons_cons, List.map_cons, hgf]
      rw [ih t₂ (by simpa using h)]

lemma alloc_length (m : Nat) :
    (allocateDurations m).length = (activeArchetypes m).length := by
  simp [allocateDurations, largestRemainder]

lemma outline_durations (cat : Category) (topic : String) (m : Nat) :
    (buildOutline cat topic m).map OutlineSection.estimatedDuration =
      allocateDurations m :=
  zipWith_map_right _ _ (fun _ _ => rfl) _ _ (alloc_length m).symm

lemma allocateDurations_sum : ∀ m < 26, 5 ≤ m → (allocateDurations m).sum = m := by
  decide

lemma allocateDurations_pos : ∀ m < 26, 5 ≤ m → ∀ d ∈ allocateDurations m, 0 < d := by
  decide

lemma allocateDurations_len5 : ∀ m < 26, 5 ≤ m → (allocateDurations m).length = 5 := by
  decide

lemma clampMinutes_mem (i : Int) : 5 ≤ clampMinutes i ∧ clampMinutes i < 26 := by
  unfold clampMinutes
  split_ifs <;> omega

lemma clampMinutes_eq (i : Int) (h₁ : 5 ≤ i) (h₂ : i ≤ 25) :
    (clampMinutes i : Int) = i := by
  unfold clampMinutes
  split_ifs <;> omega

/-- C1: for every brief whose minutes lie in the supported 5-25 bound,
the outline durations of the generated blueprint sum exactly to the
requested minutes. -/
theorem outline_durations_sum_eq_minutes (raw : RawBrief)
    (h₁ : 5 ≤ raw.minutes) (h₂ : raw.minutes ≤ 25) :
    (((generateVideoBlueprint raw).outline.map OutlineSection.estimatedDuration).sum : Int) =
      raw.minutes := by
  rw [gvb_outline, outline_durations]
  have hm := clampMinutes_mem raw.minutes
  rw [allocateDurations_sum (clampMinutes raw.minutes) hm.2 hm.1]
  exact clampMinutes_eq raw.minutes h₁ h₂

/-- Sample brief from the example scenario of spec section 8. -/
def sampleBrief : RawBrief :=
  { topic := "cold brew coffee", minutes := 10
    targetAudience := "home baristas", tone := "Educational"
    keywords := ["cold brew", "coffee"]
    callToAction := "Subscribe for more brewing guides" }

/-- C1 witness: the 10-minute sample brief satisfies the bound and its
outline durations sum to 10. -/
theorem outline_durations_sum_eq_minutes_witness :
    5 ≤ sampleBrief.minutes ∧ sampleBrief.minutes ≤ 25 ∧
      (((generateVideoBlueprint sampleBrief).outline.map
          OutlineSection.estimatedDuration).sum : Int) = sampleBrief.minutes :=
  ⟨by decide, by decide,
   outline_durations_sum_eq_minutes sampleBrief (by decide) (by decide)⟩

lemma composeScript_map_title (tone cta topic : String) :
    ∀ (out : List OutlineSection) (i : Nat),
      (composeScript tone cta topic i out).map ScriptSection.title =
        out.map OutlineSection.title := by
  intro out
  induction out with
  | nil => intro i; rfl
  | cons s rest ih =>
    intro i
    simp only [composeScript, List.map_cons]
    rw [ih (i + 1)]

/-- C2: every blueprint has one script section per outline section, in
the same order with the same title. -/
theorem script_matches_outline (raw : RawBrief) :
    (generateVideoBlueprint raw).script.length =
        (generateVideoBlueprint raw).outline.length ∧
      (generateVideoBlueprint raw).script.map ScriptSection.title =
        (generateVideoBlueprint raw).outline.map OutlineSection.title := by
  have h : (generateVideoBlueprint raw).script.map ScriptSection.title =
      (generateVideoBlueprint raw).outline.map OutlineSection.title := by
    rw [gvb_script]
    exact composeScript_map_title _ _ _ _ 0
  refine ⟨?_, h⟩
  have := congrArg List.length h
  simpa using this

/-- C4: the engine is a pure function of the brief — identical briefs
produce identical blueprints. -/
theorem generate_deterministic (b₁ b₂ : RawBrief) (h : b₁ = b₂) :
    generateVideoBlueprint b₁ = generateVideoBlueprint b₂ := by
  rw [h]

/-- C4 witness: two calls on the concrete sample brief agree. -/
theorem generate_deterministic_witness :
    generateVideoBlueprint sampleBrief = generateVideoBlueprint sampleBrief :=
  generate_deterministic sampleBrief sampleBrief rfl

lemma chapterMarkers_length :
    ∀ (out : List OutlineSection) (acc : Nat),
      (chapterMarkersFrom acc out).length = out.length := by
  intro out
  induction out with
  | nil => intro acc; rfl
  | cons s rest ih =>
    intro acc
    simp only [chapterMarkersFrom, List.length_cons]
    rw [ih]

lemma chapterMarkers_timestamps :
    ∀ (out : List OutlineSection) (acc : Nat),
      (chapterMarkersFrom acc out).map ChapterMarker.timestamp =
        (chapterStarts acc out).map formatTimestamp := by
  intro out
  induction out with
  | nil => intro acc; rfl
  | cons s rest ih =>
    intro acc
    simp only [chapterMarkersFrom, chapterStarts, List.map_cons]
    rw [ih]

lemma chapterStarts_chain :
    ∀ (out : List OutlineSection) (acc : Nat),
      (∀ s ∈ out, 0 < s.estimatedDuration) →
        List.Chain' (· < ·) (chapterStarts acc out) := by
  intro out
  induction out with
  | nil =>
    intro acc _
    simp [chapterStarts]
  | cons s rest ih =>
    intro acc h
    cases rest with
    | nil => simp [chapterStarts]
    | cons r rs =>
      have hpos : 0 < s.estimatedDuration := h s (List.mem_cons_self _ _)
      have hrest : ∀ t ∈ r :: rs, 0 < t.estimatedDuration :=
        fun t ht => h t (List.mem_cons_of_mem _ ht)
      have hch := ih (acc + s.estimatedDuration) hrest
      simp only [chapterStarts] at hch ⊢
      exact List.chain'_cons.mpr ⟨by omega, hch⟩

lemma outline_pos (raw : RawBrief) :
    ∀ s ∈ (generateVideoBlueprint raw).outline, 0 < s.estimatedDuration := by
  intro s hs
  have hmem : s.estimatedDuration ∈
      (generateVideoBlueprint raw).outline.map OutlineSection.estimatedDuration :=
    List.mem_map_of_mem _ hs
  rw [gvb_outline, outline_durations] at hmem
  have hm := clampMinutes_mem raw.minutes
  exact allocateDurations_pos _ hm.2 hm.1 _ hmem

lemma gvb_outline_length (raw : RawBrief) :
    (generateVideoBlueprint raw).outline.length = 5 := by
  rw [gvb_outline]
  have hm := clampMinutes_mem raw.minutes
  have h1 := allocateDurations_len5 _ hm.2 hm.1
  have h2 : (activeArchetypes (clampMinutes raw.minutes)).length = 5 := by
    rw [← alloc_length]
    exact h1
  simp [buildOutline, h1, h2]

/-- C3: every blueprint has exactly one chapter marker per outline
section; the marker timestamps are the formatted cumulative section
start minutes, those starts are strictly increasing, and the first
marker timestamp is 0:00. -/
theorem chapter_markers_spec (raw : RawBrief) :
    (generateVideoBlueprint raw).seo.chapterMarkers.length =
        (generateVideoBlueprint raw).outline.length ∧
      (generateVideoBlueprint raw).seo.chapterMarkers.map ChapterMarker.timestamp =
        (chapterStarts 0 (generateVideoBlueprint raw).outline).map formatTimestamp ∧
      List.Chain' (· < ·) (chapterStarts 0 (generateVideoBlueprint raw).outline) ∧
      ((generateVideoBlueprint raw).seo.chapterMarkers.map
          ChapterMarker.timestamp).head? = some ("0:00") := by
  refine ⟨?_, ?_, ?_, ?_⟩
  · rw [gvb_markers]
    exact chapterMarkers_length _ 0
  · rw [gvb_markers]
    exact chapterMarkers_timestamps _ 0
  · exact chapterStarts_chain _ 0 (outline_pos raw)
  · have hne : (generateVideoBlueprint raw).outline ≠ [] := by
      intro hnil
      have hlen := gvb_outline_length raw
      rw [hnil] at hlen
      simp at hlen
    obtain ⟨s, rest, heq⟩ := List.exists_cons_of_ne_nil hne
    rw [gvb_markers, heq]
    simp only [chapterMarkersFrom, List.map_cons, List.head?_cons]
    decide

/-! ## Claims about the export -/

/-- The fixed sequence of section lines the export contract promises, in
order: header, audience/tone/length, narrative angle, niche positioning,
trend signals, outline, script, SEO title/description/tags, production
checklist, upload package, publishing plan. -/
def exportSectionHeaders (b : VideoBlueprint) : List String :=
  ["YouTube Blueprint — " ++ b.topic,
   "Audience: " ++ b.targetAudience,
   "Tone: " ++ b.tone,
   "Length: " ++ toString b.videoLengthMinutes ++ " minutes",
   "Narrative Angle: " ++ b.narrativeAngle,
   "Niche Positioning:",
   "Trend Signals:",
   "Outline:",
   "Script:",
   "SEO Title:",
   "SEO Description:",
   "Tags:",
   "Production Checklist:",
   "Upload Package:",
   "Publishing Plan:"]

/-- C6: the plain-text export is the newline join of its line array, and
that array carries the fixed section lines as a subsequence in the
contractual order for every blueprint. -/
theorem export_section_order (b : VideoBlueprint) :
    formatBlueprintText b = String.intercalate ("\n") (formatBlueprintLines b) ∧
      List.Sublist (exportSectionHeaders b) (formatBlueprintLines b) := by
  refine ⟨rfl, ?_⟩
  have hH : List.Sublist
      ["YouTube Blueprint — " ++ b.topic, "Audience: " ++ b.targetAudience,
       "Tone: " ++ b.tone, "Length: " ++ toString b.videoLengthMinutes ++ " minutes",
       "Narrative Angle: " ++ b.narrativeAngle] (headerLines b) :=
    .cons₂ _ (.cons _ (.cons₂ _ (.cons₂ _ (.cons₂ _ (.cons₂ _ .slnil)))))
  have hN : List.Sublist ["Niche Positioning:"] (nicheLines b) :=
    .cons _ (.cons₂ _ (.cons _ .slnil))
  have hT : List.Sublist ["Trend Signals:"] (trendLines b) :=
    .cons _ (.cons₂ _ (List.nil_sublist _))
  have hO : List.Sublist ["Outline:"] (outlineLines b) :=
    .cons _ (.cons₂ _ (List.nil_sublist _))
  have hS : List.Sublist ["Script:"] (scriptLines b) :=
    .cons _ (.cons₂ _ (.cons _ .slnil))
  have hSeo : List.Sublist ["SEO Title:", "SEO Description:", "Tags:"] (seoLines b) :=
    .cons _ (.cons₂ _ (.cons _ (.cons _ (.cons₂ _ (.cons _ (.cons _
      (.cons₂ _ (.cons _ .slnil))))))))
  have hC : List.Sublist ["Production Checklist:"] (checklistLines b) :=
    .cons _ (.cons₂ _ (List.nil_sublist _))
  have hU : List.Sublist ["Upload Package:"] (uploadLines b) :=
    .cons _ (.cons₂ _ (.cons _ (.cons _ (.cons _ .slnil))))
  have hP : List.Sublist ["Publishing Plan:"] (publishingLines b) :=
    .cons _ (.cons₂ _ (List.nil_sublist _))
  exact hH.append (hN.append (hT.append (hO.append (hS.append (hSeo.append
    (hC.append (hU.append hP)))))))

/-- Blueprint carrying a probe string only in `seo.hashtags`, every other
field blank. -/
def hashtagProbe : VideoBlueprint :=
  { topic := "", videoLengthMinutes := 0, targetAudience := "", tone := ""
    narrativeAngle := "", primaryKeywords := [], callToAction := ""
    nicheAnalysis :=
      { positioningStatement := "", trendSignals := []
        audienceQuestions := [], competitorWatch := [] }
    outline := [], script := []
    seo :=
      { videoTitle := "", description := "", keywordTags := []
        hashtags := ["ZZ9"], chapterMarkers := [] }
    production :=
      { timelineDays := { preProduction := 0, production := 0, postProduction := 0 }
        checklist := [], assetRequests := [] }
    upload :=
      { optimizedTitle := "", optimizedDescription := "", uploadTags := []
        thumbnailConcept := "", endScreenIdeas := [], playlistTargets := [] }
    publishing :=
      { bestPublishWindows := [], communityPrompts := [], crossPromotion := [] } }

set_option maxRecDepth 8192 in
/-- C7 counterexample: a blueprint whose `seo.hashtags` entry is the
probe string ZZ9 renders to an export that never contains ZZ9 — the
export does not serialize every blueprint field. -/
theorem export_omits_hashtags :
    hashtagProbe.seo.hashtags = ["ZZ9"] ∧
      ¬ (("ZZ9").data <:+: (formatBlueprintText hashtagProbe).data) :=
  ⟨rfl, by decide⟩

/-- C7 amended: the export serializes the header, audience/tone/length,
narrative angle, niche positioning, trend signals, outline, script, SEO
title/description/tags, checklist titles with phase and owner, upload
title, thumbnail concept and call to action, and the publishing lists,
and is independent of the remaining blueprint fields: `seo.hashtags`,
`seo.chapterMarkers`, `nicheAnalysis.audienceQuestions`,
`nicheAnalysis.competitorWatch`, `production.timelineDays`,
`production.assetRequests`, `upload.optimizedDescription`,
`upload.uploadTags`, `upload.endScreenIdeas`, `upload.playlistTargets`. -/
theorem export_ignores_unserialized_fields (b : VideoBlueprint)
    (hashtags : List String) (markers : List ChapterMarker)
    (questions watch : List String) (days : TimelineDays)
    (assets : List AssetRequest) (uploadDescription : String)
    (uploadTags endScreens playlists : List String) :
    formatBlueprintText
      { b with
        nicheAnalysis :=
          { b.nicheAnalysis with
            audienceQuestions := questions, competitorWatch := watch }
        seo := { b.seo with hashtags := hashtags, chapterMarkers := markers }
        production :=
          { b.production with timelineDays := days, assetRequests := assets }
        upload :=
          { b.upload with
            optimizedDescription := uploadDescription, uploadTags := uploadTags
            endScreenIdeas := endScreens, playlistTargets := playlists } } =
      formatBlueprintText b :=
  rfl

end Blueprint
